import Mathlib

/-!
Shallow embedding of `src/server.js`: an Express application exposing CRUD,
filtering, pagination, search and statistics over an in-memory list of
product records.  Pure fragments of the handlers become Lean functions; the
mutable `products` list becomes explicit state passing; the Express
middleware stack (including the registration order of the error-handling
middleware and the 404 handler) is modelled as an ordered list of layers
with the standard Express dispatch discipline: normal layers are skipped
while an error is pending, error layers (4-argument middleware) are skipped
while no error is pending, and when the stack is exhausted the Express
default final handler responds.
-/

namespace ProductApi

/-- A stored product record (`products` array entries in `server.js`). -/
structure Product where
  id : String
  name : String
  description : String
  price : Int
  category : String
  inStock : Bool
deriving Repr, DecidableEq

/-- A request body as seen by the JSON body parser.  Each field is optional:
a JS object may omit any of them.  Numeric values are modelled as `Int`
(the claims only involve integral prices).  A field that is present with a
non-matching runtime type is outside this model; no claim depends on it. -/
structure Payload where
  id : Option String := none
  name : Option String := none
  description : Option String := none
  price : Option Int := none
  category : Option String := none
  inStock : Option Bool := none
deriving Repr, DecidableEq

/-- Query-string parameters of `GET /api/products` and the search route.
`page` and `limit` hold the result of JavaScript `parseInt` on the raw
parameter: `none` when the parameter is missing or `parseInt` returned
`NaN`, `some n` when it parsed to the integer `n`. -/
structure Query where
  category : Option String := none
  inStock : Option String := none
  page : Option Int := none
  limit : Option Int := none
  q : Option String := none
deriving Repr, DecidableEq

/-- An error raised in the pipeline: the custom error classes carry a
`name`, a `message` and a `statusCode` (`server.js` lines 12-35). -/
structure AppError where
  name : String
  message : String
  statusCode : Nat
deriving Repr, DecidableEq

def authError : AppError :=
  { name := "AuthError", message := "Invalid or missing API key", statusCode := 401 }

def productNotFoundError : AppError :=
  { name := "NotFoundError", message := "Product not found", statusCode := 404 }

def endpointNotFoundError : AppError :=
  { name := "NotFoundError", message := "Endpoint not found", statusCode := 404 }

def validationError (msg : String) : AppError :=
  { name := "ValidationError", message := msg, statusCode := 400 }

/-- `apiKeyMiddleware`: reads the `x-api-key` header; absent (`!apiKey`) or
different from the shared secret throws `AuthError`.  Returns the error it
throws, or `none` when the request may continue. -/
def apiKeyCheck (apiKey : Option String) : Option AppError :=
  match apiKey with
  | none => some authError
  | some k => if k = "secret-api-key" then none else some authError

/-- `validateProductMiddleware`: the five field checks, in source order,
short-circuiting on the first failure.  JS truthiness: `!product.name` is
true for a missing field and for the empty string; `!product.price` for a
missing field and for `0` (also caught by `price <= 0`); `inStock` is only
checked with `typeof`. -/
def validateProduct (b : Payload) : Option AppError :=
  if b.name = none ∨ b.name = some "" then
    some (validationError "Product name is required and must be a string")
  else if b.description = none ∨ b.description = some "" then
    some (validationError "Product description is required and must be a string")
  else if (match b.price with | none => true | some v => v ≤ 0) then
    some (validationError "Product price is required and must be a positive number")
  else if b.category = none ∨ b.category = some "" then
    some (validationError "Product category is required and must be a string")
  else if b.inStock = none then
    some (validationError "Product inStock status is required and must be a boolean")
  else none

/-- The seeded in-memory `products` database (`server.js` lines 88-113). -/
def seededProducts : List Product :=
  [ { id := "1", name := "Laptop",
      description := "High-performance laptop with 16GB RAM",
      price := 1200, category := "electronics", inStock := true },
    { id := "2", name := "Smartphone",
      description := "Latest model with 128GB storage",
      price := 800, category := "electronics", inStock := true },
    { id := "3", name := "Coffee Maker",
      description := "Programmable coffee maker with timer",
      price := 50, category := "kitchen", inStock := false } ]

/-- JavaScript `String.prototype.toLowerCase`, modelled character-wise
(ASCII case mapping, which covers every string the service compares). -/
def jsToLower (s : String) : String := ⟨s.data.map Char.toLower⟩

/-- Category filter (`server.js` lines 125-129): applied only when
`req.query.category` is truthy (present and non-empty); keeps records whose
lower-cased category equals the lower-cased parameter. -/
def filterByCategory (cat : Option String) (ps : List Product) : List Product :=
  match cat with
  | none => ps
  | some c =>
      if c = "" then ps
      else ps.filter (fun p => jsToLower p.category = jsToLower c)

/-- Stock filter (`server.js` lines 132-137): applied only when
`req.query.inStock` is truthy (present and non-empty); the parameter
lower-cased and compared to `"true"` gives the boolean to match. -/
def filterByStock (stk : Option String) (ps : List Product) : List Product :=
  match stk with
  | none => ps
  | some v =>
      if v = "" then ps
      else ps.filter (fun p => p.inStock = (jsToLower v = "true"))

/-- `parseInt(req.query.page) || 1`: the `||` replaces a `NaN` (modelled as
`none`) and a parsed `0` by the default `1`. -/
def pageOf (v : Option Int) : Int :=
  match v with
  | none => 1
  | some n => if n = 0 then 1 else n

/-- `parseInt(req.query.limit) || 10`: same coercion, default `10`. -/
def limitOf (v : Option Int) : Int :=
  match v with
  | none => 10
  | some n => if n = 0 then 10 else n

/-- JavaScript `Array.prototype.slice(start, end)`: negative indices count
from the end, both indices are clamped to `[0, length]`, and the elements
at positions `[start', end')` are returned. -/
def jsSlice (ps : List Product) (start stop : Int) : List Product :=
  let len : Int := ps.length
  let s := if start < 0 then max (len + start) 0 else min start len
  let e := if stop < 0 then max (len + stop) 0 else min stop len
  (ps.drop s.toNat).take (e.toNat - s.toNat)

/-- The `results` object of `GET /api/products` (`server.js` lines 145-150). -/
structure ListResult where
  total : Nat
  page : Int
  limit : Int
  products : List Product
deriving Repr, DecidableEq

/-- `GET /api/products` handler: category filter, then stock filter, then
pagination with `startIndex = (page-1)*limit`, `endIndex = page*limit`. -/
def listProducts (query : Query) (ps : List Product) : ListResult :=
  let filtered := filterByStock query.inStock (filterByCategory query.category ps)
  let page := pageOf query.page
  let limit := limitOf query.limit
  { total := filtered.length
    page := page
    limit := limit
    products := jsSlice filtered ((page - 1) * limit) (page * limit) }

/-- `String.prototype.includes` on lower-cased strings, as a list-infix
check on the character lists. -/
def strIncludes (s pat : String) : Bool :=
  (List.range (s.toList.length + 1)).any (fun i => pat.toList.isPrefixOf (s.toList.drop i))

/-- `GET /api/products/search` handler: a missing or empty `q` is falsy and
throws `ValidationError`; otherwise case-insensitive substring match on
`name`. -/
def searchProducts (q : Option String) (ps : List Product) :
    Except AppError (List Product) :=
  match q with
  | none => .error (validationError "Search query parameter \"q\" is required")
  | some t =>
      if t = "" then .error (validationError "Search query parameter \"q\" is required")
      else .ok (ps.filter (fun p => strIncludes (jsToLower p.name) (jsToLower t)))

/-- The statistics object of `GET /api/products/stats`; `categories` is the
incrementally-built JS object, an insertion-ordered association list. -/
structure Stats where
  totalProducts : Nat
  inStock : Nat
  outOfStock : Nat
  categories : List (String × Nat)
deriving Repr, DecidableEq

/-- One step of the `products.forEach` loop: create the key with count 0 if
absent, then increment it. -/
def bumpCategory (m : List (String × Nat)) (c : String) : List (String × Nat) :=
  match m with
  | [] => [(c, 1)]
  | (k, n) :: rest => if k = c then (k, n + 1) :: rest else (k, n) :: bumpCategory rest c

def categoriesOf (ps : List Product) : List (String × Nat) :=
  ps.foldl (fun m p => bumpCategory m p.category) []

/-- `GET /api/products/stats` handler (`server.js` lines 170-186). -/
def getStats (ps : List Product) : Stats :=
  { totalProducts := ps.length
    inStock := (ps.filter (fun p => p.inStock)).length
    outOfStock := (ps.filter (fun p => !p.inStock)).length
    categories := categoriesOf ps }

/-- `GET /api/products/:id` handler: `products.find` by exact id. -/
def getProduct (pid : String) (ps : List Product) : Except AppError Product :=
  match ps.find? (fun p => p.id = pid) with
  | none => .error productNotFoundError
  | some p => .ok p

/-- The object built by the `POST` handler: `{ id: uuidv4(), ...req.body }`.
The body is spread AFTER the generated id, so a body field named `id`
overrides the freshly generated identifier.  The remaining fields come from
the body; validation has already guaranteed they are present, so the `getD`
defaults are never reached on the create path. -/
def mkCreated (genId : String) (b : Payload) : Product :=
  { id := b.id.getD genId
    name := b.name.getD ""
    description := b.description.getD ""
    price := b.price.getD 0
    category := b.category.getD ""
    inStock := b.inStock.getD false }

/-- The object built by the `PUT` handler:
`{ ...products[i], ...req.body, id: req.params.id }` — old record spread
first, body second, and `id` forced back to the path parameter last. -/
def mergeProduct (old : Product) (b : Payload) (pid : String) : Product :=
  { id := pid
    name := b.name.getD old.name
    description := b.description.getD old.description
    price := b.price.getD old.price
    category := b.category.getD old.category
    inStock := b.inStock.getD old.inStock }

/-- `findIndex` + in-place assignment of the `PUT` handler: replace the
first record whose id matches with the merged record, returning it and the
new list, or `none` when no record matches. -/
def updateList (pid : String) (b : Payload) : List Product → Option (Product × List Product)
  | [] => none
  | p :: rest =>
      if p.id = pid then
        let u := mergeProduct p b pid
        some (u, u :: rest)
      else
        match updateList pid b rest with
        | none => none
        | some (u, rest2) => some (u, p :: rest2)

/-- HTTP method of a request. -/
inductive Method where
  | GET | POST | PUT | DELETE
deriving Repr, DecidableEq

/-- An inbound request: method, path (as a list of non-empty segments, so
`/api/products/3` is `["api", "products", "3"]` and `/` is `[]`), the
`x-api-key` header, the parsed JSON body, and the query parameters. -/
structure Request where
  method : Method
  path : List String
  apiKey : Option String := none
  body : Payload := {}
  query : Query := {}
deriving Repr, DecidableEq

/-- Response bodies the app can produce.  `envelope` is the stable JSON
error shape written by the custom error-handling middleware; `defaultPage`
is Express's built-in final error handler (an HTML page that includes the
error's stack trace in development mode) and `cannotGet` its built-in
response for a request that exhausts the stack without an error. -/
inductive RespBody where
  | welcome
  | listing (r : ListResult)
  | matches (ps : List Product)
  | statsBody (s : Stats)
  | product (p : Product)
  | emptyBody
  | envelope (e : AppError)
  | defaultPage (e : AppError)
  | cannotGet
deriving Repr, DecidableEq

structure HttpResponse where
  status : Nat
  body : RespBody
deriving Repr, DecidableEq

/-- What a middleware layer does with a request: respond (with a possibly
updated store), pass to the next layer, or throw an error. -/
inductive StepOut where
  | send (status : Nat) (body : RespBody) (store : List Product)
  | next
  | fail (e : AppError)
deriving Repr, DecidableEq

/-- A layer of the Express stack: ordinary middleware / route handlers, or
4-argument error-handling middleware. -/
inductive Layer where
  | normal (run : Request → List Product → StepOut)
  | onError (run : AppError → Request → List Product → StepOut)

/-- Express dispatch over the registered stack: without a pending error,
`onError` layers are skipped; with a pending error, `normal` layers are
skipped; a synchronous throw switches to error mode for the REST of the
stack; an exhausted stack falls to Express's default final handler, which
uses the error's `statusCode` and renders the default page (never the
custom JSON envelope). -/
def dispatch : List Layer → Option AppError → Request → List Product →
    HttpResponse × List Product
  | [], none, _, s => ({ status := 404, body := .cannotGet }, s)
  | [], some e, _, s => ({ status := e.statusCode, body := .defaultPage e }, s)
  | .normal f :: rest, none, req, s =>
      match f req s with
      | .send st b s2 => ({ status := st, body := b }, s2)
      | .next => dispatch rest none req s
      | .fail e => dispatch rest (some e) req s
  | .normal _ :: rest, some e, req, s => dispatch rest (some e) req s
  | .onError _ :: rest, none, req, s => dispatch rest none req s
  | .onError f :: rest, some e, req, s =>
      match f e req s with
      | .send st b s2 => ({ status := st, body := b }, s2)
      | .next => dispatch rest none req s
      | .fail e2 => dispatch rest (some e2) req s

/-- `loggerMiddleware`: a pure side effect; always calls `next()`. -/
def loggerLayer : Layer := .normal fun _ s => let _ := s; .next

/-- `GET /` route. -/
def rootLayer : Layer := .normal fun req s =>
  match req.method, req.path with
  | .GET, [] => .send 200 .welcome s
  | _, _ => .next

/-- `GET /api/products` route. -/
def listLayer : Layer := .normal fun req s =>
  match req.method, req.path with
  | .GET, ["api", "products"] => .send 200 (.listing (listProducts req.query s)) s
  | _, _ => .next

/-- `GET /api/products/search` route (registered before `/:id`). -/
def searchLayer : Layer := .normal fun req s =>
  match req.method, req.path with
  | .GET, ["api", "products", "search"] =>
      match searchProducts req.query.q s with
      | .ok ps => .send 200 (.matches ps) s
      | .error e => .fail e
  | _, _ => .next

/-- `GET /api/products/stats` route (registered before `/:id`). -/
def statsLayer : Layer := .normal fun req s =>
  match req.method, req.path with
  | .GET, ["api", "products", "stats"] => .send 200 (.statsBody (getStats s)) s
  | _, _ => .next

/-- `GET /api/products/:id` route. -/
def getByIdLayer : Layer := .normal fun req s =>
  match req.method, req.path with
  | .GET, ["api", "products", pid] =>
      match getProduct pid s with
      | .ok p => .send 200 (.product p) s
      | .error e => .fail e
  | _, _ => .next

/-- `POST /api/products` route: auth middleware, validation middleware,
then the handler pushes `{ id: uuidv4(), ...req.body }` and responds 201.
`genId` stands for the `uuidv4()` result. -/
def postLayer (genId : String) : Layer := .normal fun req s =>
  match req.method, req.path with
  | .POST, ["api", "products"] =>
      match apiKeyCheck req.apiKey with
      | some e => .fail e
      | none =>
          match validateProduct req.body with
          | some e => .fail e
          | none =>
              let p := mkCreated genId req.body
              .send 201 (.product p) (s ++ [p])
  | _, _ => .next

/-- `PUT /api/products/:id` route: auth, validation of the incoming body,
then find-merge-replace. -/
def putLayer : Layer := .normal fun req s =>
  match req.method, req.path with
  | .PUT, ["api", "products", pid] =>
      match apiKeyCheck req.apiKey with
      | some e => .fail e
      | none =>
          match validateProduct req.body with
          | some e => .fail e
          | none =>
              match updateList pid req.body s with
              | none => .fail productNotFoundError
              | some (u, s2) => .send 200 (.product u) s2
  | _, _ => .next

/-- `DELETE /api/products/:id` route: auth, then
`products = products.filter(p => p.id !== req.params.id)` after a
`findIndex` existence check. -/
def deleteLayer : Layer := .normal fun req s =>
  match req.method, req.path with
  | .DELETE, ["api", "products", pid] =>
      match apiKeyCheck req.apiKey with
      | some e => .fail e
      | none =>
          if s.any (fun p => p.id = pid) then
            .send 204 .emptyBody (s.filter (fun p => p.id ≠ pid))
          else .fail productNotFoundError
  | _, _ => .next

/-- The custom error-handling middleware (`server.js` lines 241-254):
renders the stable JSON envelope `{error: {name, message, statusCode}}`
with `err.statusCode || 500`. -/
def errorLayer : Layer := .onError fun e _ s =>
  .send (if e.statusCode = 0 then 500 else e.statusCode) (.envelope e) s

/-- The 404 handler (`server.js` lines 257-259), registered AFTER the
error-handling middleware: throws `NotFoundError("Endpoint not found")`. -/
def notFoundLayer : Layer := .normal fun _ _ =>
  .fail endpointNotFoundError

/-- The full stack in registration order (body parser omitted: it only
produces `req.body`, which the model takes as given). -/
def appLayers (genId : String) : List Layer :=
  [ loggerLayer, rootLayer, listLayer, searchLayer, statsLayer, getByIdLayer,
    postLayer genId, putLayer, deleteLayer, errorLayer, notFoundLayer ]

/-- Run one request against the application: Express dispatch over the
registered stack, starting with no pending error. -/
def handleApp (genId : String) (req : Request) (s : List Product) :
    HttpResponse × List Product :=
  dispatch (appLayers genId) none req s

/-! ### Helper definitions and lemmas -/

/-- Lookup in the insertion-ordered association list built by the stats
handler; an absent key counts as `0`. -/
def lookupCount (m : List (String × Nat)) (c : String) : Nat :=
  match m with
  | [] => 0
  | (k, n) :: rest => if k = c then n else lookupCount rest c

/-- The slice described by the spec: the elements of the filtered list at
indices `[(P-1)*L, min(P*L, N))` (stated from the spec's words, for
comparison with the implementation's `jsSlice`). -/
def specSlice (ps : List Product) (P L : Int) : List Product :=
  (ps.drop ((P - 1) * L).toNat).take
    ((min (P * L) (ps.length : Int)).toNat - ((P - 1) * L).toNat)

/-- The create request used to exhibit the payload-id override: a payload
that passes validation and carries an explicit `id` field `"1"`. -/
def idOverrideBody : Payload :=
  { id := some "1"
    name := some "Widget"
    description := some "Wooden widget"
    price := some 5
    category := some "toys"
    inStock := some true }

def idOverrideRequest : Request :=
  { method := .POST
    path := ["api", "products"]
    apiKey := some "secret-api-key"
    body := idOverrideBody }

theorem lookupCount_bumpCategory (m : List (String × Nat)) (c0 c : String) :
    lookupCount (bumpCategory m c0) c =
      lookupCount m c + (if c0 = c then 1 else 0) := by
  induction m with
  | nil => simp [bumpCategory, lookupCount]
  | cons e rest ih =>
      obtain ⟨k, n⟩ := e
      by_cases hk : k = c0
      · subst hk
        by_cases hc : k = c <;> simp [bumpCategory, lookupCount, hc]
      · by_cases hc : k = c
        · subst hc
          have hc0 : ¬ c0 = k := fun h => hk h.symm
          simp [bumpCategory, lookupCount, hk, hc0]
        · simp [bumpCategory, lookupCount, hk, hc, ih]

theorem lookupCount_foldl_bump (ps : List Product) (m : List (String × Nat)) (c : String) :
    lookupCount (ps.foldl (fun m p => bumpCategory m p.category) m) c =
      lookupCount m c + (ps.filter (fun p => p.category = c)).length := by
  induction ps generalizing m with
  | nil => simp
  | cons p rest ih =>
      rw [List.foldl_cons, ih, lookupCount_bumpCategory]
      by_cases hc : p.category = c
      · simp [hc]
        omega
      · simp [hc]

theorem fst_mem_bumpCategory (m : List (String × Nat)) (c0 : String) (e : String × Nat) :
    e ∈ bumpCategory m c0 → e.1 = c0 ∨ ∃ n, (e.1, n) ∈ m := by
  induction m with
  | nil =>
      intro he
      simp [bumpCategory] at he
      simp [he]
  | cons f rest ih =>
      obtain ⟨k, n⟩ := f
      intro he
      by_cases hk : k = c0
      · subst hk
        simp only [bumpCategory, if_true, eq_self_iff_true, ite_true, List.mem_cons] at he
        rcases he with he | he
        · left; simp [he]
        · right; exact ⟨e.2, List.mem_cons_of_mem _ (by simpa using he)⟩
      · simp only [bumpCategory, if_neg hk, List.mem_cons] at he
        rcases he with he | he
        · right; exact ⟨n, by simp [he]⟩
        · rcases ih he with h | h
          · exact Or.inl h
          · obtain ⟨n2, hn2⟩ := h
            exact Or.inr ⟨n2, List.mem_cons_of_mem _ hn2⟩

theorem fst_mem_foldl_bump (ps : List Product) (m : List (String × Nat)) (e : String × Nat) :
    e ∈ ps.foldl (fun m p => bumpCategory m p.category) m →
      (∃ n, (e.1, n) ∈ m) ∨ ∃ p ∈ ps, p.category = e.1 := by
  induction ps generalizing m with
  | nil =>
      intro he
      exact Or.inl ⟨e.2, by simpa using he⟩
  | cons p rest ih =>
      intro he
      rw [List.foldl_cons] at he
      rcases ih (bumpCategory m p.category) he with h | h
      · obtain ⟨n, hn⟩ := h
        rcases fst_mem_bumpCategory m p.category (e.1, n) hn with h2 | h2
        · exact Or.inr ⟨p, List.mem_cons_self p rest, h2.symm⟩
        · exact Or.inl h2
      · obtain ⟨q, hq, hc⟩ := h
        exact Or.inr ⟨q, List.mem_cons_of_mem p hq, hc⟩

theorem sum_bumpCategory (m : List (String × Nat)) (c : String) :
    ((bumpCategory m c).map Prod.snd).sum = (m.map Prod.snd).sum + 1 := by
  induction m with
  | nil => simp [bumpCategory]
  | cons e rest ih =>
      obtain ⟨k, n⟩ := e
      by_cases hk : k = c <;> simp [bumpCategory, hk, ih] <;> omega

theorem sum_foldl_bump (ps : List Product) (m : List (String × Nat)) :
    ((ps.foldl (fun m p => bumpCategory m p.category) m).map Prod.snd).sum =
      (m.map Prod.snd).sum + ps.length := by
  induction ps generalizing m with
  | nil => simp
  | cons p rest ih =>
      rw [List.foldl_cons, ih, sum_bumpCategory]
      simp only [List.length_cons]
      omega

theorem length_filter_stock_partition (ps : List Product) :
    (ps.filter (fun p => p.inStock)).length +
      (ps.filter (fun p => !p.inStock)).length = ps.length := by
  induction ps with
  | nil => rfl
  | cons p rest ih => cases hp : p.inStock <;> simp [List.filter_cons, hp] <;> omega

/-! ### Claims -/

/-- C8: for every store state and every pair of supplied category and
inStock parameters, applying the category filter and the stock filter in
either order yields the same result set, and the category filter is
case-insensitive: filtering by "Electronics" and by "electronics" yield
identical sets. -/
theorem filters_commute_and_category_case_insensitive :
    (∀ (c v : Option String) (ps : List Product),
      filterByStock v (filterByCategory c ps) =
        filterByCategory c (filterByStock v ps))
    ∧ ∀ ps : List Product,
        filterByCategory (some "Electronics") ps =
          filterByCategory (some "electronics") ps := by
  constructor
  · intro c v ps
    cases c with
    | none => rfl
    | some c =>
        cases v with
        | none => rfl
        | some v =>
            simp only [filterByCategory, filterByStock]
            by_cases hc : c = ""
            · simp [hc]
            · by_cases hv : v = ""
              · simp [hv]
              · simp only [if_neg hc, if_neg hv]
                rw [List.filter_filter, List.filter_filter]
                congr 1
                funext p
                rw [Bool.and_comm]
  · intro ps
    have h : jsToLower "Electronics" = jsToLower "electronics" := by decide
    simp only [filterByCategory, h]
    rw [if_neg (by decide), if_neg (by decide)]

/-- C9: for every store state, the stats handler computes, over the entire
unfiltered store, the total record count, the in-stock count, the
out-of-stock count, and a mapping keyed by the exact (case-sensitive)
category string whose value at each category is the number of records with
exactly that category; every key of the mapping is the category of some
record. -/
theorem stats_fields_correct (ps : List Product) :
    (getStats ps).totalProducts = ps.length
    ∧ (getStats ps).inStock = (ps.filter (fun p => p.inStock)).length
    ∧ (getStats ps).outOfStock = (ps.filter (fun p => !p.inStock)).length
    ∧ (∀ c : String,
        lookupCount (getStats ps).categories c =
          (ps.filter (fun p => p.category = c)).length)
    ∧ ∀ e ∈ (getStats ps).categories, ∃ p ∈ ps, p.category = e.1 := by
  refine ⟨rfl, rfl, rfl, ?_, ?_⟩
  · intro c
    have h := lookupCount_foldl_bump ps [] c
    simpa [getStats, categoriesOf, lookupCount] using h
  · intro e he
    have h := fst_mem_foldl_bump ps [] e (by simpa [getStats, categoriesOf] using he)
    rcases h with h | h
    · obtain ⟨n, hn⟩ := h
      exact absurd hn (List.not_mem_nil _)
    · exact h

/-- C10: for every store state, the statistics satisfy
`inStock + outOfStock = totalProducts` and the counts in the categories
mapping sum to `totalProducts`. -/
theorem stats_sums_consistent (ps : List Product) :
    (getStats ps).inStock + (getStats ps).outOfStock = (getStats ps).totalProducts
    ∧ ((getStats ps).categories.map Prod.snd).sum = (getStats ps).totalProducts := by
  refine ⟨length_filter_stock_partition ps, ?_⟩
  have h := sum_foldl_bump ps []
  simpa [getStats, categoriesOf] using h

theorem jsSlice_eq_specSlice (l : List Product) (P L : Int)
    (hP : 1 ≤ P) (hL : 1 ≤ L) :
    jsSlice l ((P - 1) * L) (P * L) = specSlice l P L := by
  have hs0 : 0 ≤ (P - 1) * L := mul_nonneg (by omega) (by omega)
  have he0 : 0 ≤ P * L := by positivity
  simp only [jsSlice, specSlice]
  rw [if_neg (by omega), if_neg (by omega)]
  by_cases hcase : (P - 1) * L ≤ (l.length : Int)
  · rw [min_eq_left hcase]
  · have h1 : min ((P - 1) * L) ((l.length : Int)) = (l.length : Int) :=
      min_eq_right (le_of_lt (not_le.mp hcase))
    rw [h1, Int.toNat_natCast, List.drop_length,
      List.drop_eq_nil_of_le (by omega), List.take_nil, List.take_nil]

/-- C5 (counterexample): with a supplied numeric `page` of `0` (and the
default limit `10`) on the seeded store, the spec's slice
`[(P-1)L, min(PL,N))` is empty, but the handler coerces `page` `0` to `1`
(via `|| 1`) and returns all three records — so the defaulting is not
limited to non-numeric or missing parameters. -/
theorem page_zero_defaults_not_empty :
    (listProducts { page := some 0 } seededProducts).products = seededProducts
    ∧ specSlice seededProducts 0 10 = []
    ∧ (listProducts { page := some 0 } seededProducts).total = 3 :=
  ⟨rfl, rfl, rfl⟩

/-- C5 (amended): for every filtered set and every page and limit whose
coerced values `pageOf`/`limitOf` are positive (a missing, non-numeric or
zero parameter coerces to the default 1 resp. 10), `GET /api/products`
returns exactly the sub-sequence at indices `[(P-1)L, min(PL, N))` of the
filtered set (out-of-range pages yield an empty sequence), `total` equals
the filtered size N independent of page and limit, and `page`/`limit` are
echoed back. -/
theorem pagination_slice_correct (cat stk : Option String) (v w : Option Int)
    (s : List Product) (hP : 1 ≤ pageOf v) (hL : 1 ≤ limitOf w) :
    (listProducts { category := cat, inStock := stk, page := v, limit := w } s).total
      = (filterByStock stk (filterByCategory cat s)).length
    ∧ (listProducts { category := cat, inStock := stk, page := v, limit := w } s).page
      = pageOf v
    ∧ (listProducts { category := cat, inStock := stk, page := v, limit := w } s).limit
      = limitOf w
    ∧ (listProducts { category := cat, inStock := stk, page := v, limit := w } s).products
      = specSlice (filterByStock stk (filterByCategory cat s)) (pageOf v) (limitOf w) :=
  ⟨rfl, rfl, rfl,
    jsSlice_eq_specSlice (filterByStock stk (filterByCategory cat s))
      (pageOf v) (limitOf w) hP hL⟩

/-- C5 witness: page 2 with limit 1 over the category filter
`electronics` on the seeded store. -/
theorem pagination_slice_correct_witness :
    (listProducts
        { category := some "electronics", inStock := none, page := some 2, limit := some 1 }
        seededProducts).total
      = (filterByStock none (filterByCategory (some "electronics") seededProducts)).length
    ∧ (listProducts
        { category := some "electronics", inStock := none, page := some 2, limit := some 1 }
        seededProducts).page = pageOf (some 2)
    ∧ (listProducts
        { category := some "electronics", inStock := none, page := some 2, limit := some 1 }
        seededProducts).limit = limitOf (some 1)
    ∧ (listProducts
        { category := some "electronics", inStock := none, page := some 2, limit := some 1 }
        seededProducts).products
      = specSlice (filterByStock none (filterByCategory (some "electronics") seededProducts))
          (pageOf (some 2)) (limitOf (some 1)) :=
  pagination_slice_correct (some "electronics") none (some 2) (some 1) seededProducts
    (by decide) (by decide)

/-- C6 (counterexample): a supplied empty `inStock` value is falsy in the
handler's `if (req.query.inStock)` guard, so no filtering is applied at
all (all three seeded records come back), whereas parsing `""` to `false`
would keep exactly the one out-of-stock record. -/
theorem empty_instock_param_is_no_filter :
    filterByStock (some "") seededProducts = seededProducts
    ∧ (seededProducts.filter (fun p => p.inStock = false)).length = 1 :=
  ⟨rfl, rfl⟩

/-- C6 (amended): an absent OR empty-string `inStock` parameter applies no
filtering; any other supplied value keeps exactly the records whose
`inStock` equals the parsed boolean, where `"true"` compared
case-insensitively parses to `true` and any other non-empty value parses
to `false`. -/
theorem stock_filter_parse_correct (ps : List Product) (v : String) (h : v ≠ "") :
    filterByStock none ps = ps
    ∧ filterByStock (some "") ps = ps
    ∧ filterByStock (some v) ps =
        ps.filter (fun p => p.inStock = (jsToLower v = "true")) := by
  refine ⟨rfl, rfl, ?_⟩
  simp only [filterByStock, if_neg h]

/-- C6 witness: the case-insensitive value `"TRUE"` filters the seeded
store down to its in-stock records. -/
theorem stock_filter_parse_correct_witness :
    filterByStock (some "TRUE") seededProducts =
      seededProducts.filter (fun p => p.inStock = (jsToLower "TRUE" = "true")) :=
  (stock_filter_parse_correct seededProducts "TRUE" (by decide)).2.2

theorem updateList_some_spec (pid : String) (b : Payload) :
    ∀ (s : List Product) (u : Product) (s2 : List Product),
      updateList pid b s = some (u, s2) →
        u.id = pid ∧ ∃ old, old ∈ s ∧ old.id = pid ∧ u = mergeProduct old b pid := by
  intro s
  induction s with
  | nil =>
      intro u s2 h
      simp [updateList] at h
  | cons p rest ih =>
      intro u s2 h
      by_cases hp : p.id = pid
      · simp only [updateList, if_pos hp, Option.some.injEq, Prod.mk.injEq] at h
        obtain ⟨h1, h2⟩ := h
        exact ⟨h1 ▸ rfl, p, List.mem_cons_self p rest, hp, h1.symm⟩
      · simp only [updateList, if_neg hp] at h
        cases hrec : updateList pid b rest with
        | none => rw [hrec] at h; simp at h
        | some pr =>
            obtain ⟨u2, rest2⟩ := pr
            rw [hrec] at h
            simp only [Option.some.injEq, Prod.mk.injEq] at h
            obtain ⟨h1, h2⟩ := h
            obtain ⟨hid, old, hmem, hold, heq⟩ := ih u2 rest2 hrec
            exact ⟨h1 ▸ hid, old, List.mem_cons_of_mem p hmem, hold, h1 ▸ heq⟩

/-- C7: a POST that fails authentication (missing or wrong `x-api-key`)
yields 401 with the `AuthError` envelope, and a POST that passes
authentication but carries `price: -5` (other early-checked fields
present) yields 400 with the `ValidationError` envelope; in both cases the
store is returned unchanged. -/
theorem post_auth_and_validation_failures_leave_store_unchanged
    (g : String) (q : Query) (s : List Product) (b b2 : Payload) (k : Option String)
    (hk : k ≠ some "secret-api-key")
    (hn : b2.name ≠ none) (hn2 : b2.name ≠ some "")
    (hd : b2.description ≠ none) (hd2 : b2.description ≠ some "")
    (hp : b2.price = some (-5)) :
    handleApp g
        { method := .POST
          path := ["api", "products"]
          apiKey := k
          body := b
          query := q } s
      = ({ status := 401, body := .envelope authError }, s)
    ∧ handleApp g
        { method := .POST
          path := ["api", "products"]
          apiKey := some "secret-api-key"
          body := b2
          query := q } s
      = ({ status := 400,
           body := .envelope
             (validationError "Product price is required and must be a positive number") },
         s) := by
  constructor
  · have hak : apiKeyCheck k = some authError := by
      cases k with
      | none => rfl
      | some x =>
          have hx : ¬ x = "secret-api-key" := fun h => hk (congrArg some h)
          simp [apiKeyCheck, hx]
    simp [handleApp, appLayers, dispatch, loggerLayer, rootLayer, listLayer, searchLayer,
      statsLayer, getByIdLayer, postLayer, putLayer, deleteLayer, errorLayer,
      notFoundLayer, authError, hak]
  · have hval : validateProduct b2 =
        some (validationError "Product price is required and must be a positive number") := by
      simp [validateProduct, hn, hn2, hd, hd2, hp]
    simp [handleApp, appLayers, dispatch, loggerLayer, rootLayer, listLayer, searchLayer,
      statsLayer, getByIdLayer, postLayer, putLayer, deleteLayer, errorLayer,
      notFoundLayer, apiKeyCheck, validationError, hval]

/-- C7 witness: a missing key and the scenario body with `price: -5`
against the seeded store. -/
theorem post_auth_and_validation_failures_witness :
    handleApp "g"
        { method := .POST
          path := ["api", "products"]
          apiKey := none
          body := {}
          query := {} } seededProducts
      = ({ status := 401, body := .envelope authError }, seededProducts)
    ∧ handleApp "g"
        { method := .POST
          path := ["api", "products"]
          apiKey := some "secret-api-key"
          body :=
            { name := some "Bad"
              description := some "Bad product"
              price := some (-5)
              category := some "junk"
              inStock := some true }
          query := {} } seededProducts
      = ({ status := 400,
           body := .envelope
             (validationError "Product price is required and must be a positive number") },
         seededProducts) :=
  post_auth_and_validation_failures_leave_store_unchanged "g" {} seededProducts {}
    { name := some "Bad"
      description := some "Bad product"
      price := some (-5)
      category := some "junk"
      inStock := some true }
    none (by decide) (by decide) (by decide) (by decide) (by decide) (by decide)

/-- C3 (counterexample): `PUT /api/products/1` with the credential and the
partial body `{price: 100}`: id `"1"` exists, the body merges with the
stored Laptop record into a record satisfying every field constraint, yet
the request is rejected 400 with `ValidationError` — the middleware
validates the incoming payload before the merge, so a partial body never
succeeds. -/
theorem put_partial_body_rejected :
    (seededProducts.any fun p => p.id = "1") = true
    ∧ handleApp "g"
        { method := .PUT
          path := ["api", "products", "1"]
          apiKey := some "secret-api-key"
          body := { price := some 100 } } seededProducts
      = ({ status := 400,
           body := .envelope (validationError "Product name is required and must be a string") },
         seededProducts)
    ∧ (mergeProduct
          { id := "1"
            name := "Laptop"
            description := "High-performance laptop with 16GB RAM"
            price := 1200
            category := "electronics"
            inStock := true }
          { price := some 100 } "1").name ≠ ""
    ∧ (mergeProduct
          { id := "1"
            name := "Laptop"
            description := "High-performance laptop with 16GB RAM"
            price := 1200
            category := "electronics"
            inStock := true }
          { price := some 100 } "1").description ≠ ""
    ∧ 0 < (mergeProduct
          { id := "1"
            name := "Laptop"
            description := "High-performance laptop with 16GB RAM"
            price := 1200
            category := "electronics"
            inStock := true }
          { price := some 100 } "1").price
    ∧ (mergeProduct
          { id := "1"
            name := "Laptop"
            description := "High-performance laptop with 16GB RAM"
            price := 1200
            category := "electronics"
            inStock := true }
          { price := some 100 } "1").category ≠ "" := by
  refine ⟨rfl, rfl, by decide, by decide, by decide, by decide⟩

/-- C3 (amended): for an authenticated PUT on an existing id whose body
passes the payload validation (which runs on the incoming body itself, so
the full field set is required), the handler merges the existing record
with the payload, forces `id` back to the path value, returns 200 with the
updated record, and stores it. -/
theorem put_full_body_merges_and_forces_id (g pid : String) (q : Query) (b : Payload)
    (s s2 : List Product) (u : Product)
    (hv : validateProduct b = none) (hu : updateList pid b s = some (u, s2)) :
    handleApp g
        { method := .PUT
          path := ["api", "products", pid]
          apiKey := some "secret-api-key"
          body := b
          query := q } s
      = ({ status := 200, body := .product u }, s2)
    ∧ u.id = pid
    ∧ ∃ old, old ∈ s ∧ old.id = pid ∧ u = mergeProduct old b pid := by
  obtain ⟨hid, hspec⟩ := updateList_some_spec pid b s u s2 hu
  refine ⟨?_, hid, hspec⟩
  simp [handleApp, appLayers, dispatch, loggerLayer, rootLayer, listLayer, searchLayer,
    statsLayer, getByIdLayer, postLayer, putLayer, deleteLayer, errorLayer,
    notFoundLayer, apiKeyCheck, hv, hu]

/-- C3 witness: a full replacement body for id "1" on the seeded store. -/
theorem put_full_body_merges_and_forces_id_witness :
    handleApp "g"
        { method := .PUT
          path := ["api", "products", "1"]
          apiKey := some "secret-api-key"
          body :=
            { name := some "Gaming Laptop"
              description := some "Upgraded"
              price := some 1500
              category := some "electronics"
              inStock := some false }
          query := {} } seededProducts
      = ({ status := 200,
           body := .product
             { id := "1"
               name := "Gaming Laptop"
               description := "Upgraded"
               price := 1500
               category := "electronics"
               inStock := false } },
         { id := "1"
           name := "Gaming Laptop"
           description := "Upgraded"
           price := 1500
           category := "electronics"
           inStock := false } :: seededProducts.tail)
    ∧ ({ id := "1"
         name := "Gaming Laptop"
         description := "Upgraded"
         price := 1500
         category := "electronics"
         inStock := false } : Product).id = "1"
    ∧ ∃ old, old ∈ seededProducts ∧ old.id = "1"
        ∧ ({ id := "1"
             name := "Gaming Laptop"
             description := "Upgraded"
             price := 1500
             category := "electronics"
             inStock := false } : Product)
          = mergeProduct old
              { name := some "Gaming Laptop"
                description := some "Upgraded"
                price := some 1500
                category := some "electronics"
                inStock := some false } "1" :=
  put_full_body_merges_and_forces_id "g" "1" {}
    { name := some "Gaming Laptop"
      description := some "Upgraded"
      price := some 1500
      category := some "electronics"
      inStock := some false }
    seededProducts
    ({ id := "1"
       name := "Gaming Laptop"
       description := "Upgraded"
       price := 1500
       category := "electronics"
       inStock := false } :: seededProducts.tail)
    { id := "1"
      name := "Gaming Laptop"
      description := "Upgraded"
      price := 1500
      category := "electronics"
      inStock := false }
    (by decide) (by decide)

/-- C1 (code bug): a valid POST payload carrying an `id` field is NOT
ignored — the spread `{ id: uuidv4(), ...req.body }` places the body after
the generated id, so the stored and returned record keeps the payload's
id `"1"` instead of the freshly generated `"a-fresh-uuid"`. -/
theorem post_stores_payload_id_not_fresh :
    validateProduct idOverrideBody = none
    ∧ handleApp "a-fresh-uuid" idOverrideRequest seededProducts
      = ({ status := 201, body := .product (mkCreated "a-fresh-uuid" idOverrideBody) },
         seededProducts ++ [mkCreated "a-fresh-uuid" idOverrideBody])
    ∧ (mkCreated "a-fresh-uuid" idOverrideBody).id = "1"
    ∧ (mkCreated "a-fresh-uuid" idOverrideBody).id ≠ "a-fresh-uuid" :=
  ⟨rfl, rfl, rfl, by decide⟩

/-- C4 (code bug): id uniqueness is not preserved by the create operation:
from the seeded store, a single POST whose valid payload carries
`id: "1"` produces a state with two records whose id is `"1"`. -/
theorem duplicate_id_reachable_via_create :
    (seededProducts.filter (fun p => p.id = "1")).length = 1
    ∧ ((handleApp "uuid-fresh-and-unused" (
          { method := .POST
            path := ["api", "products"]
            apiKey := some "secret-api-key"
            body :=
              { id := some "1"
                name := some "Duplicate"
                description := some "Copies an existing id"
                price := some 2
                category := some "toys"
                inStock := some false } } : Request) seededProducts).2.filter
        (fun p => p.id = "1")).length = 2 :=
  ⟨rfl, rfl⟩

/-- C2 (code bug): a request matching no route reaches the 404 handler,
whose thrown `NotFoundError("Endpoint not found")` finds no error-handling
middleware registered after it (the JSON-envelope middleware is registered
BEFORE the 404 handler), so Express's default final handler responds: the
status is 404 but the body is the default error page, never the stable
JSON envelope. -/
theorem unmatched_request_gets_default_page_not_envelope :
    handleApp "g"
        { method := .GET
          path := ["definitely", "not", "a", "route"] } seededProducts
      = ({ status := 404, body := .defaultPage endpointNotFoundError }, seededProducts)
    ∧ ∀ e : AppError, RespBody.defaultPage endpointNotFoundError ≠ RespBody.envelope e :=
  ⟨rfl, fun _ h => RespBody.noConfusion h⟩

end ProductApi
